import Mathlib

/-!
Verification development for the RFM customer-segmentation pipeline.

The Python sources are shallowly embedded as Lean functions over lists of
records:

* `src/data.py` — `clean_transactions` over lists of raw transaction rows;
* `src/preprocessing.py` — `compute_rfm` and `prepare_for_clustering`;
* `src/train_kmeans.py` — `TrainKmeans.train_and_save` plus the fixed
  `DEFAULT_SEGMENT_MAP`;
* `src/train_dbscan.py` — `TrainDbscan.train_and_save`, including the
  left-merge of the previously persisted `Cluster`/`Segment` columns;
* `app/app.py` — the four read endpoints of the analytics query service.

Embedding conventions.  Data frames are lists of structures, one structure
per row.  Monetary amounts, quantities and customer ids are embedded as
exact integers (`Int`): every property checked here depends only on the
ordering and sign of those values, never on fractional float behaviour.
Timestamps are embedded as `Nat` minutes; `pandas.Timedelta.days` is
floor division by 1440 (`Int.fdiv`, matching Python's floor semantics).
The transcendental pieces of the numeric stack (`np.log1p`, the square
root inside `StandardScaler.fit`) are passed in as function parameters:
the claims about the feature pipeline hold for every choice of those
functions.  The clustering algorithms themselves (`KMeans.fit_predict`,
`DBSCAN.fit_predict`) are opaque label-producing functions, again passed
as parameters, exactly as the spec treats them ("black-box capabilities").
File-system state (the `models/` and `data/processed/` directories) is an
explicit `Store` record threaded through the trainers.
-/

/-- One raw transaction row, as read by `load_raw` from the delimited
source (`src/data.py`).  `CustomerID` is nullable; `Quantity` may be
negative (returns); `InvoiceDate` is a timestamp in minutes. -/
structure RawTxn where
  invoiceNo : String
  customerID : Option Int
  quantity : Int
  unitPrice : Int
  invoiceDate : Nat
  deriving DecidableEq, Repr

/-- A cleaned transaction row: a raw row plus the derived
`TotalPrice = Quantity * UnitPrice` column added by `clean_transactions`. -/
structure Txn extends RawTxn where
  totalPrice : Int
  deriving DecidableEq, Repr

/-- Python `str(invoice).startswith("C")` for the single-character
cancellation marker used in `clean_transactions`: true iff the first
character of the invoice id is the marker `C`. -/
def startsWithMarker (inv : String) : Bool :=
  match inv.toList with
  | [] => false
  | c :: _ => c = 'C'

/-- `clean_transactions` from `src/data.py`, applied filter by filter in
source order: drop rows with missing `CustomerID`; keep `Quantity > 0`;
keep `UnitPrice > 0`; drop invoices whose id starts with the cancellation
marker; add `TotalPrice = Quantity * UnitPrice`.  The final
`pd.to_datetime` is the identity here because `invoiceDate` is already a
timestamp. -/
def clean_transactions (df : List RawTxn) : List Txn :=
  let df1 := df.filter fun r => r.customerID.isSome
  let df2 := df1.filter fun r => decide (0 < r.quantity)
  let df3 := df2.filter fun r => decide (0 < r.unitPrice)
  let df4 := df3.filter fun r => !startsWithMarker r.invoiceNo
  df4.map fun r => { toRawTxn := r, totalPrice := r.quantity * r.unitPrice }

/-- The row-keeping predicate stated by the spec for `clean_transactions`:
non-missing customer id, positive quantity, positive unit price, and an
invoice id not starting with the cancellation marker. -/
def keepRow (r : RawTxn) : Bool :=
  r.customerID.isSome && decide (0 < r.quantity) && decide (0 < r.unitPrice)
    && !startsWithMarker r.invoiceNo

/-- Maximum `InvoiceDate` of a list of cleaned transactions
(`df["InvoiceDate"].max()`); 0 on the empty list. -/
def maxDate (l : List Txn) : Nat :=
  l.foldr (fun t m => max t.invoiceDate m) 0

/-- The rows of one `groupby("CustomerID")` group. -/
def customerGroup (df : List Txn) (c : Int) : List Txn :=
  df.filter fun t => decide (t.customerID = some c)

/-- One row of the RFM table produced by `compute_rfm`. -/
structure RfmRow where
  customerID : Int
  recency : Int
  frequency : Nat
  monetary : Int
  deriving DecidableEq, Repr

/-- Minutes per day: `pd.Timedelta(days=1)` in the minute embedding. -/
def oneDay : Nat := 1440

/-- `compute_rfm` from `src/preprocessing.py`.  Snapshot date is one day
past the global maximum invoice date.  Group keys are the distinct
customer ids, sorted ascending as `pandas.groupby` does.  Per group:
`Recency` is `(snapshot - group max).days` (floor division by one day),
`Frequency` is `nunique` of the invoice ids, `Monetary` is the sum of
`TotalPrice`. -/
def compute_rfm (df : List Txn) : List RfmRow :=
  let snapshot : Int := (maxDate df : Int) + (oneDay : Int)
  let keys := ((df.filterMap (·.customerID)).dedup).insertionSort (· ≤ ·)
  keys.map fun c =>
    let grp := customerGroup df c
    { customerID := c
      recency := Int.fdiv (snapshot - (maxDate grp : Int)) (oneDay : Int)
      frequency := ((grp.map (·.invoiceNo)).dedup).length
      monetary := (grp.map (·.totalPrice)).sum }

/-- Concrete three-row table for the C5 witness: customer 7 has two rows
under invoice `A1` and one row under invoice `A2`. -/
def freqTxns : List Txn :=
  [ { invoiceNo := "A1", customerID := some 7, quantity := 1, unitPrice := 2,
      invoiceDate := 1440, totalPrice := 2 },
    { invoiceNo := "A1", customerID := some 7, quantity := 3, unitPrice := 1,
      invoiceDate := 1440, totalPrice := 3 },
    { invoiceNo := "A2", customerID := some 7, quantity := 2, unitPrice := 5,
      invoiceDate := 2880, totalPrice := 10 } ]

/-- Concrete raw batch for several witnesses: one kept row for customer 5,
one kept row for customer 9 on an earlier day, and one discarded row
(negative quantity). -/
def boundsRaw : List RawTxn :=
  [ { invoiceNo := "536365", customerID := some 5, quantity := 2, unitPrice := 3,
      invoiceDate := 2880 },
    { invoiceNo := "536366", customerID := some 9, quantity := 1, unitPrice := 4,
      invoiceDate := 1440 },
    { invoiceNo := "536367", customerID := some 5, quantity := -1, unitPrice := 4,
      invoiceDate := 2880 } ]

/-- A three-component feature vector (Recency, Frequency, Monetary) after
numeric transformation. -/
structure Feat3 where
  f1 : ℚ
  f2 : ℚ
  f3 : ℚ
  deriving DecidableEq, Repr

/-- The persisted `StandardScaler` state: per-feature mean and scale
(standard deviation) fitted once during centroid training. -/
structure ScalerState where
  mean : Feat3
  scale : Feat3
  deriving DecidableEq, Repr

/-- `StandardScaler.transform` with already-fitted parameters: subtract the
fitted mean and divide by the fitted scale, per feature, without refitting. -/
def scalerTransform (sc : ScalerState) (v : Feat3) : Feat3 :=
  { f1 := (v.f1 - sc.mean.f1) / sc.scale.f1
    f2 := (v.f2 - sc.mean.f2) / sc.scale.f2
    f3 := (v.f3 - sc.mean.f3) / sc.scale.f3 }

/-- `rfm[["Recency", "Frequency", "Monetary"]].apply(np.log1p)` for one
row: `log1p` applied elementwise to the three features.  `log1p` is a
function parameter (the claims hold for every choice of it). -/
def rfmLogRow (log1p : ℚ → ℚ) (r : RfmRow) : Feat3 :=
  { f1 := log1p (r.recency : ℚ)
    f2 := log1p (r.frequency : ℚ)
    f3 := log1p (r.monetary : ℚ) }

/-- Per-feature batch mean used by `StandardScaler.fit`. -/
def featMean (tbl : List Feat3) : Feat3 :=
  { f1 := (tbl.map (·.f1)).sum / (tbl.length : ℚ)
    f2 := (tbl.map (·.f2)).sum / (tbl.length : ℚ)
    f3 := (tbl.map (·.f3)).sum / (tbl.length : ℚ) }

/-- Per-feature batch population variance used by `StandardScaler.fit`. -/
def featVar (tbl : List Feat3) : Feat3 :=
  let m := featMean tbl
  { f1 := (tbl.map fun v => (v.f1 - m.f1) ^ 2).sum / (tbl.length : ℚ)
    f2 := (tbl.map fun v => (v.f2 - m.f2) ^ 2).sum / (tbl.length : ℚ)
    f3 := (tbl.map fun v => (v.f3 - m.f3) ^ 2).sum / (tbl.length : ℚ) }

/-- `StandardScaler.fit` over a batch: record the batch mean, and the
scale as the square root of the batch variance.  The square root is a
function parameter; sklearn's replacement of a zero scale by 1 is folded
into that parameter's behaviour at 0 (no claim depends on it). -/
def fitStandardScaler (sqrtQ : ℚ → ℚ) (tbl : List Feat3) : ScalerState :=
  let v := featVar tbl
  { mean := featMean tbl
    scale := { f1 := sqrtQ v.f1, f2 := sqrtQ v.f2, f3 := sqrtQ v.f3 } }

/-- `prepare_for_clustering` from `src/preprocessing.py` (first-time
fitting path): log features, a freshly fitted scaler, and the features
standardized by that fresh fit (`fit_transform`).  Returns
`(rfm_log, rfm_scaled, scaler)`. -/
def prepare_for_clustering (log1p sqrtQ : ℚ → ℚ) (rfm : List RfmRow) :
    List Feat3 × List Feat3 × ScalerState :=
  let rfmLog := rfm.map (rfmLogRow log1p)
  let scaler := fitStandardScaler sqrtQ rfmLog
  (rfmLog, rfmLog.map (scalerTransform scaler), scaler)

/-- Modelled from the spec: the repository has no standalone
`apply_existing_scaler` function; §4.3 specifies its contract
`apply_existing_scaler(rfm_table, fitted_scaler) -> scaled_features` as
"applies log1p then the *already-fitted* transform without refitting". -/
def apply_existing_scaler (log1p : ℚ → ℚ) (rfm : List RfmRow) (sc : ScalerState) :
    List Feat3 :=
  rfm.map fun r => scalerTransform sc (rfmLogRow log1p r)

namespace TrainDbscan

/-- `train_dbscan.py` line 15: the density trainer's own
`rfm[["Recency", "Frequency", "Monetary"]].apply(np.log1p)`. -/
def rfm_log (log1p : ℚ → ℚ) (rfm : List RfmRow) : List Feat3 :=
  rfm.map (rfmLogRow log1p)

/-- `train_dbscan.py` line 16: `scaler.transform(rfm_log)` — the loaded,
already-fitted scaler applied to the density trainer's log features,
with no refit. -/
def rfm_scaled (log1p : ℚ → ℚ) (sc : ScalerState) (rfm : List RfmRow) : List Feat3 :=
  (rfm_log log1p rfm).map (scalerTransform sc)

end TrainDbscan

/-- One row of the centroid trainer's labeled dataset: an RFM row plus the
`Cluster` id and the `Segment` label (null when the fixed segment map has
no entry for the cluster id). -/
structure KMRow where
  customerID : Int
  recency : Int
  frequency : Nat
  monetary : Int
  cluster : Int
  segment : Option String
  deriving DecidableEq, Repr

/-- One row of a density-only dataset: an RFM row plus `DBSCAN_Cluster`
(the noise sentinel -1 is just another integer value here). -/
structure DRow where
  customerID : Int
  recency : Int
  frequency : Nat
  monetary : Int
  dbscanCluster : Int
  deriving DecidableEq, Repr

/-- The `[["CustomerID", "Cluster", "Segment"]]` projection of a prior
labeled dataset, as selected by the density trainer before merging.  Both
`Cluster` and `Segment` are nullable: a previously merged dataset carries
nulls for customers the centroid run had not seen. -/
structure PRow where
  customerID : Int
  cluster : Option Int
  segment : Option String
  deriving DecidableEq, Repr

/-- One row of a merged dataset: fresh RFM with `DBSCAN_Cluster`, plus the
left-joined nullable `Cluster`/`Segment` columns. -/
structure MRow where
  customerID : Int
  recency : Int
  frequency : Nat
  monetary : Int
  dbscanCluster : Int
  cluster : Option Int
  segment : Option String
  deriving DecidableEq, Repr

/-- The possible shapes of the persisted `rfm_with_segments.parquet`
dataset, distinguished by which columns are present. -/
inductive SavedTable where
  | kmeansOut (rows : List KMRow)
  | dbscanOnly (rows : List DRow)
  | mergedOut (rows : List MRow)
  deriving DecidableEq, Repr

/-- The density trainer's column check
`"Segment" in existing.columns and "Cluster" in existing.columns`. -/
def hasClusterSegmentColumns : SavedTable → Bool
  | .kmeansOut _ => true
  | .mergedOut _ => true
  | .dbscanOnly _ => false

/-- `existing[["CustomerID", "Cluster", "Segment"]]`: the three-column
projection of a persisted dataset that has `Cluster`/`Segment` columns. -/
def priorClusterSegment : SavedTable → List PRow
  | .kmeansOut rows => rows.map fun r =>
      { customerID := r.customerID
        cluster := some r.cluster
        segment := r.segment }
  | .mergedOut rows => rows.map fun r =>
      { customerID := r.customerID
        cluster := r.cluster
        segment := r.segment }
  | .dbscanOnly _ => []

/-- The fitted density model artifact (`dbscan.joblib`): its persisted
hyperparameters; the fitted internals are opaque and immaterial here. -/
structure DbscanModel where
  eps : ℚ
  minSamples : Nat
  deriving DecidableEq, Repr

/-- The artifact store (`models/` directory plus the processed parquet):
which artifacts exist and, where relevant, their contents.  The centroid
model and segment map blobs are tracked as presence flags, since no claim
inspects their contents. -/
structure Store where
  scaler : Option ScalerState
  kmeansModel : Bool
  dbscanModel : Option DbscanModel
  segmentMapArtifact : Bool
  parquet : Option SavedTable
  deriving DecidableEq, Repr

/-- `DEFAULT_SEGMENT_MAP` from `src/train_kmeans.py`, as the partial map a
Python dict is under `Series.map`: cluster ids outside the four fixed keys
get no segment (pandas fills NaN, embedded as `none`). -/
def DEFAULT_SEGMENT_MAP : Int → Option String := fun c =>
  if c = 0 then some "High Value"
  else if c = 1 then some "Loyal"
  else if c = 2 then some "At Risk"
  else if c = 3 then some "Low Value"
  else none

namespace TrainKmeans

/-- `train_and_save` from `src/train_kmeans.py`: clean the raw data, build
RFM, fit the scaler and transform (`prepare_for_clustering`), fit KMeans
with `n_clusters`/`random_state` (the fit is the opaque `kmeansFit`
parameter producing one label per input vector), assign `Cluster` and map
it through `DEFAULT_SEGMENT_MAP` to `Segment`, persist scaler, model,
segment map and — when `save_rfm` — the labeled dataset.  No validation
relates `n_clusters` to the segment map's size. -/
def train_and_save (log1p sqrtQ : ℚ → ℚ)
    (kmeansFit : Nat → Nat → List Feat3 → List Int)
    (nClusters randomState : Nat) (saveRfm : Bool)
    (store : Store) (raw : List RawTxn) : Store × List KMRow :=
  let df := clean_transactions raw
  let rfm := compute_rfm df
  let prep := prepare_for_clustering log1p sqrtQ rfm
  let labels := kmeansFit nClusters randomState prep.2.1
  let out := (rfm.zip labels).map fun rc =>
    { customerID := rc.1.customerID
      recency := rc.1.recency
      frequency := rc.1.frequency
      monetary := rc.1.monetary
      cluster := rc.2
      segment := DEFAULT_SEGMENT_MAP rc.2 }
  let store1 : Store :=
    { store with
      scaler := some prep.2.2
      kmeansModel := true
      segmentMapArtifact := true
      parquet := if saveRfm then some (SavedTable.kmeansOut out) else store.parquet }
  (store1, out)

end TrainKmeans

/-- Concrete inputs for the C10 witness: a KMeans stub that assigns every
point the cluster id 4 (legal when `n_clusters = 5`, but outside the
fixed segment map). -/
def kmeansFitConst4 : Nat → Nat → List Feat3 → List Int :=
  fun _ _ xs => xs.map fun _ => (4 : Int)

/-- The error taxonomy of the training entry points (§7): the density
trainer fails fast with `artifactMissing` naming the artifact path when a
required artifact (the fitted scaler) is absent. -/
inductive TrainError where
  | artifactMissing (path : String)
  deriving DecidableEq, Repr

namespace TrainDbscan

/-- The freshly computed RFM-with-DBSCAN table of `train_dbscan.py`
line 19-20: one `DBSCAN_Cluster` label per RFM row, produced by the opaque
`fit_predict` of the density model over the scaled features. -/
def fresh_table (log1p : ℚ → ℚ) (dbscanFit : List Feat3 → List Int)
    (sc : ScalerState) (rfm : List RfmRow) : List DRow :=
  (rfm.zip (dbscanFit (rfm_scaled log1p sc rfm))).map fun rc =>
    { customerID := rc.1.customerID
      recency := rc.1.recency
      frequency := rc.1.frequency
      monetary := rc.1.monetary
      dbscanCluster := rc.2 }

/-- One output row of the left merge: the fresh row's RFM and DBSCAN
columns together with the matched prior row's `Cluster`/`Segment` (or
nulls when there is no match). -/
def mergeRow (f : DRow) (cs : Option Int × Option String) : MRow :=
  { customerID := f.customerID
    recency := f.recency
    frequency := f.frequency
    monetary := f.monetary
    dbscanCluster := f.dbscanCluster
    cluster := cs.1
    segment := cs.2 }

/-- The output rows one fresh row contributes to the left merge: one row
per matching prior row, or a single row with null `Cluster`/`Segment`
when no prior row has the same `CustomerID`. -/
def mergeOne (prior : List PRow) (f : DRow) : List MRow :=
  match prior.filter (fun p => decide (p.customerID = f.customerID)) with
  | [] => [mergeRow f (none, none)]
  | ps => ps.map fun p => mergeRow f (p.cluster, p.segment)

/-- The pandas left merge
`rfm.merge(existing[["CustomerID", "Cluster", "Segment"]], on="CustomerID",
how="left")`: every fresh row is kept; each pairs with every prior row of
the same key, or carries null `Cluster`/`Segment` when no prior row
matches. -/
def leftMerge (fresh : List DRow) (prior : List PRow) : List MRow :=
  fresh.flatMap (mergeOne prior)

/-- The dataset shape the density trainer persists and returns: merged
(with nullable `Cluster`/`Segment` columns) after a prior centroid run,
otherwise the DBSCAN-only table with no such columns. -/
inductive DbOut where
  | noMerge (rows : List DRow)
  | merged (rows : List MRow)
  deriving DecidableEq, Repr

/-- The parquet written for each output shape. -/
def savedOfDbOut : DbOut → SavedTable
  | .noMerge rows => SavedTable.dbscanOnly rows
  | .merged rows => SavedTable.mergedOut rows

/-- `train_and_save` from `src/train_dbscan.py`.  Loads the persisted
scaler first (fails with `artifactMissing` naming `models/scaler.joblib`
before any training work when it is absent), recomputes RFM from the raw
data, scales with the already-fitted scaler, fits DBSCAN (the opaque
`dbscanFit` parameter, given `eps` and `min_samples`), persists the
density model, then — if a persisted dataset with both `Cluster` and
`Segment` columns exists — left-joins those two columns onto the fresh
table by `CustomerID`; finally persists the resulting table, overwriting
the prior dataset file. -/
def train_and_save (log1p : ℚ → ℚ)
    (dbscanFit : ℚ → Nat → List Feat3 → List Int)
    (eps : ℚ) (minSamples : Nat)
    (store : Store) (raw : List RawTxn) : Except TrainError (Store × DbOut) :=
  match store.scaler with
  | none => Except.error (TrainError.artifactMissing "models/scaler.joblib")
  | some sc =>
    let df := clean_transactions raw
    let rfm := compute_rfm df
    let fresh := fresh_table log1p (dbscanFit eps minSamples) sc rfm
    let store1 : Store := { store with dbscanModel := some ⟨eps, minSamples⟩ }
    let out :=
      match store.parquet with
      | some t =>
        if hasClusterSegmentColumns t then
          DbOut.merged (leftMerge fresh (priorClusterSegment t))
        else
          DbOut.noMerge fresh
      | none => DbOut.noMerge fresh
    Except.ok ({ store1 with parquet := some (savedOfDbOut out) }, out)

end TrainDbscan

/-- The artifact store of a machine where nothing has been trained yet. -/
def emptyStore : Store :=
  { scaler := none, kmeansModel := false, dbscanModel := none,
    segmentMapArtifact := false, parquet := none }

/-- A concrete fitted scaler (zero mean, unit scale) for witnesses. -/
def scalerUnit : ScalerState :=
  { mean := ⟨0, 0, 0⟩, scale := ⟨1, 1, 1⟩ }

/-- A DBSCAN stub assigning every point the noise label -1. -/
def dbscanFitNoise : ℚ → Nat → List Feat3 → List Int :=
  fun _ _ xs => xs.map fun _ => (-1 : Int)

/-- A prior centroid-run dataset: customer 5 (also in the fresh
computation) labeled `Loyal`, customer 77 (absent from the fresh
computation) labeled `High Value`. -/
def priorKmeansTable : SavedTable :=
  SavedTable.kmeansOut
    [ ⟨5, 9, 2, 40, 1, some "Loyal"⟩,
      ⟨77, 3, 2, 50, 0, some "High Value"⟩ ]

/-- A store holding a fitted scaler and the prior labeled dataset. -/
def storeWithPrior : Store :=
  { scaler := some scalerUnit, kmeansModel := true, dbscanModel := none,
    segmentMapArtifact := true, parquet := some priorKmeansTable }

/-- A store holding a fitted scaler but no persisted dataset. -/
def storeNoPrior : Store :=
  { scaler := some scalerUnit, kmeansModel := true, dbscanModel := none,
    segmentMapArtifact := true, parquet := none }

/-- The fresh RFM-with-DBSCAN table the density trainer computes from
`boundsRaw` with the unit scaler and the noise-labeling DBSCAN stub. -/
def dbscanFreshDemo : List DRow :=
  TrainDbscan.fresh_table id (dbscanFitNoise 0 5) scalerUnit
    (compute_rfm (clean_transactions boundsRaw))

/-- A JSON value, the body shape of the Flask `jsonify` responses. -/
inductive Jval where
  | null
  | s (v : String)
  | i (v : Int)
  | q (v : ℚ)
  | arr (vs : List Jval)
  | obj (fields : List (String × Jval))

/-- An HTTP response of the query service: status code and JSON body. -/
structure HttpResponse where
  status : Nat
  body : Jval

/-- One row of the persisted dataset as the query service reads it.  The
handlers assume the labeled schema the centroid trainer writes (`Cluster`
present and integer-valued, per `int(r["Cluster"])`); `Segment` is
nullable. -/
structure AppRow where
  customerID : Int
  recency : Int
  frequency : Nat
  monetary : Int
  cluster : Int
  segment : Option String
  dbscanCluster : Int
  deriving DecidableEq, Repr

/-- The dataset the query service reads: its rows, plus whether the
`DBSCAN_Cluster` column is present (a column-level fact in pandas). -/
structure AppTable where
  rows : List AppRow
  hasDbscan : Bool
  deriving DecidableEq, Repr

/-- `get_rfm_df` from `app/app.py`: `None` when the parquet file does not
exist, otherwise the loaded dataset.  The argument is the persisted file
state, so the function is the identity on it; the process-level lazy
cache is invisible to a single call. -/
def get_rfm_df (persisted : Option AppTable) : Option AppTable :=
  persisted

/-- The shared 503 response every read endpoint returns when the dataset
is absent. -/
def noDataResp : HttpResponse :=
  { status := 503
    body := Jval.obj
      [("error", Jval.s "No processed RFM data. Run: python -m src.train_kmeans")] }

/-- `Series.value_counts()` over the `Segment` column: null values are
dropped, distinct values are counted and sorted by descending count. -/
def valueCounts (vals : List (Option String)) : List (String × Nat) :=
  let xs := vals.filterMap id
  (xs.dedup.map fun s => (s, xs.count s)).insertionSort (fun a b => b.2 ≤ a.2)

/-- The sorted distinct segment names of `groupby("Segment")` (null
segment keys are dropped, keys sorted ascending). -/
def segmentKeys (rows : List AppRow) : List String :=
  ((rows.filterMap (·.segment)).dedup).insertionSort (· ≤ ·)

/-- The rows of one `groupby("Segment")` group. -/
def segmentGroup (rows : List AppRow) (s : String) : List AppRow :=
  rows.filter fun r => decide (r.segment = some s)

/-- Arithmetic mean of a list of rationals (a pandas column mean). -/
def meanQ (xs : List ℚ) : ℚ :=
  xs.sum / (xs.length : ℚ)

/-- `.round(2)`: round to two decimal places.  Mathlib's `round` resolves
ties half-up where pandas resolves them half-even on floats; no claim
depends on tie behaviour. -/
def round2 (x : ℚ) : ℚ :=
  ((round (x * 100) : ℤ) : ℚ) / 100

/-- `GET /analytics/overview`: 503 without a dataset; otherwise total
distinct customers, per-segment counts, and the segment names. -/
def analytics_overview (persisted : Option AppTable) : HttpResponse :=
  match get_rfm_df persisted with
  | none => noDataResp
  | some t =>
    let counts := valueCounts (t.rows.map (·.segment))
    let total := ((t.rows.map (·.customerID)).dedup).length
    { status := 200
      body := Jval.obj
        [ ("total_customers", Jval.i (total : Int)),
          ("segment_counts", Jval.obj (counts.map fun sc => (sc.1, Jval.i (sc.2 : Int)))),
          ("segments", Jval.arr (counts.map fun sc => Jval.s sc.1)) ] }

/-- `GET /analytics/segments`: 503 without a dataset; otherwise one record
per segment with count and rounded mean Recency/Frequency/Monetary. -/
def analytics_segments (persisted : Option AppTable) : HttpResponse :=
  match get_rfm_df persisted with
  | none => noDataResp
  | some t =>
    { status := 200
      body := Jval.arr ((segmentKeys t.rows).map fun s =>
        let grp := segmentGroup t.rows s
        Jval.obj
          [ ("Segment", Jval.s s),
            ("count", Jval.i (grp.length : Int)),
            ("mean_recency", Jval.q (round2 (meanQ (grp.map fun r => (r.recency : ℚ))))),
            ("mean_frequency", Jval.q (round2 (meanQ (grp.map fun r => (r.frequency : ℚ))))),
            ("mean_monetary", Jval.q (round2 (meanQ (grp.map fun r => (r.monetary : ℚ))))) ]) }

/-- `GET /analytics/summary`: 503 without a dataset; otherwise rounded
mean Recency/Frequency/Monetary per segment. -/
def analytics_summary (persisted : Option AppTable) : HttpResponse :=
  match get_rfm_df persisted with
  | none => noDataResp
  | some t =>
    { status := 200
      body := Jval.arr ((segmentKeys t.rows).map fun s =>
        let grp := segmentGroup t.rows s
        Jval.obj
          [ ("Segment", Jval.s s),
            ("Recency", Jval.q (round2 (meanQ (grp.map fun r => (r.recency : ℚ))))),
            ("Frequency", Jval.q (round2 (meanQ (grp.map fun r => (r.frequency : ℚ))))),
            ("Monetary", Jval.q (round2 (meanQ (grp.map fun r => (r.monetary : ℚ))))) ]) }

/-- Digit test for the decimal parser (Python `float` accepts `0`-`9`). -/
def isDigitChar (c : Char) : Bool :=
  48 ≤ c.toNat && c.toNat ≤ 57

/-- Value of a digit string. -/
def digitsVal (cs : List Char) : Nat :=
  cs.foldl (fun n c => 10 * n + (c.toNat - 48)) 0

/-- Decimal core of the Python `float(...)` conversion: digits with an
optional fractional part. -/
def pyFloatCore (cs : List Char) : Option ℚ :=
  let ip := cs.takeWhile isDigitChar
  let rest := cs.dropWhile isDigitChar
  match rest with
  | [] => if ip.isEmpty then none else some ((digitsVal ip : ℚ))
  | '.' :: fp =>
    if fp.all isDigitChar && !(ip.isEmpty && fp.isEmpty) then
      some ((digitsVal ip : ℚ) + (digitsVal fp : ℚ) / (10 : ℚ) ^ fp.length)
    else none
  | _ => none

/-- Python's `float(customer_id)` conversion, modelled on plain decimal
literals with an optional sign: `none` exactly when the conversion raises
`ValueError` (exponent, infinity and whitespace forms are out of scope;
no claim involves them). -/
def pyFloat (s : String) : Option ℚ :=
  match s.toList with
  | '-' :: t => (pyFloatCore t).map (fun q => -q)
  | '+' :: t => pyFloatCore t
  | cs => pyFloatCore cs

/-- `GET /analytics/customer/{id}` from `app/app.py`, in source order: the
dataset-absence check runs first (503), then the numeric conversion of
the path id (400 on failure), then the row lookup (404 when empty),
otherwise the customer's record, with `DBSCAN_Cluster` only when that
column exists. -/
def analytics_customer (persisted : Option AppTable) (customerId : String) :
    HttpResponse :=
  match get_rfm_df persisted with
  | none => noDataResp
  | some t =>
    match pyFloat customerId with
    | none =>
      { status := 400
        body := Jval.obj [("error", Jval.s "customer_id must be numeric")] }
    | some cid =>
      match t.rows.filter (fun r => decide ((r.customerID : ℚ) = cid)) with
      | [] =>
        { status := 404
          body := Jval.obj
            [("error", Jval.s ("Customer " ++ customerId ++ " not found"))] }
      | r :: _ =>
        { status := 200
          body := Jval.obj
            ([ ("CustomerID", Jval.q (r.customerID : ℚ)),
               ("Segment", match r.segment with
                 | some s => Jval.s s
                 | none => Jval.null),
               ("Cluster", Jval.i r.cluster),
               ("Recency", Jval.q (r.recency : ℚ)),
               ("Frequency", Jval.q (r.frequency : ℚ)),
               ("Monetary", Jval.q (r.monetary : ℚ)) ] ++
             (if t.hasDbscan then [("DBSCAN_Cluster", Jval.i r.dbscanCluster)]
              else [])) }

/-- An existing but empty dataset for the C2 witness. -/
def emptyAppTable : AppTable :=
  { rows := [], hasDbscan := false }

/-- CLAIM C4: `clean_transactions` keeps exactly the rows with a present
customer id, positive quantity, positive unit price and a
non-cancellation invoice id, and adds `TotalPrice = Quantity * UnitPrice`
to every surviving row. -/
theorem clean_transactions_exact (df : List RawTxn) :
    clean_transactions df =
      (df.filter keepRow).map
        (fun r => { toRawTxn := r, totalPrice := r.quantity * r.unitPrice }) := by
  unfold clean_transactions
  simp only [List.filter_filter]
  congr 1
  apply List.filter_congr
  intro r _
  unfold keepRow
  cases r.customerID.isSome <;> cases h2 : decide (0 < r.quantity) <;>
    cases h3 : decide (0 < r.unitPrice) <;> cases startsWithMarker r.invoiceNo <;>
    simp [h2, h3]

/-- CLAIM C5: in every `compute_rfm` output row, `Frequency` is the number
of distinct invoice ids among that customer's rows, not the row count. -/
theorem compute_rfm_frequency_distinct (df : List Txn) (r : RfmRow)
    (hr : r ∈ compute_rfm df) :
    r.frequency = (((customerGroup df r.customerID).map (·.invoiceNo)).dedup).length := by
  unfold compute_rfm at hr
  rcases List.mem_map.mp hr with ⟨c, _, rfl⟩
  rfl

/-- Witness for C5: on `freqTxns` (three rows, two distinct invoices) the
customer's row is in `compute_rfm`'s output and its `Frequency` equals the
distinct-invoice count 2, not the row count 3. -/
theorem compute_rfm_frequency_distinct_witness :
    (⟨7, 1, 2, 15⟩ : RfmRow) ∈ compute_rfm freqTxns ∧
      (⟨7, 1, 2, 15⟩ : RfmRow).frequency =
        (((customerGroup freqTxns 7).map (·.invoiceNo)).dedup).length ∧
      (customerGroup freqTxns 7).length = 3 ∧
      (⟨7, 1, 2, 15⟩ : RfmRow).frequency = 2 :=
  ⟨by decide, compute_rfm_frequency_distinct freqTxns ⟨7, 1, 2, 15⟩ (by decide),
    by decide, by decide⟩

/-- Every row surviving `clean_transactions` has positive quantity,
positive unit price, a present customer id, and the derived
`TotalPrice = Quantity * UnitPrice`. -/
lemma clean_transactions_mem (raw : List RawTxn) (t : Txn)
    (ht : t ∈ clean_transactions raw) :
    0 < t.quantity ∧ 0 < t.unitPrice ∧
      t.totalPrice = t.quantity * t.unitPrice ∧ t.customerID.isSome = true := by
  unfold clean_transactions at ht
  rcases List.mem_map.mp ht with ⟨r, hr, rfl⟩
  rcases List.mem_filter.mp hr with ⟨hr3, _⟩
  rcases List.mem_filter.mp hr3 with ⟨hr2, hp⟩
  rcases List.mem_filter.mp hr2 with ⟨hr1, hq⟩
  rcases List.mem_filter.mp hr1 with ⟨_, hc⟩
  exact ⟨of_decide_eq_true hq, of_decide_eq_true hp, rfl, hc⟩

/-- Any member's invoice date is bounded by `maxDate`. -/
lemma le_maxDate_of_mem {t : Txn} {l : List Txn} (ht : t ∈ l) :
    t.invoiceDate ≤ maxDate l := by
  induction l with
  | nil => cases ht
  | cons a l ih =>
    rcases List.mem_cons.mp ht with rfl | h
    · exact le_max_left _ _
    · exact le_trans (ih h) (le_max_right _ _)

/-- `maxDate` is bounded by any bound on all members. -/
lemma maxDate_le {l : List Txn} {b : Nat} (h : ∀ t ∈ l, t.invoiceDate ≤ b) :
    maxDate l ≤ b := by
  induction l with
  | nil => exact Nat.zero_le b
  | cons a l ih =>
    exact max_le (h a (List.mem_cons_self a l)) (ih fun t ht => h t (List.mem_cons_of_mem a ht))

/-- Shared bounds for every RFM row computed from a cleaned transaction
set: `Frequency ≥ 1`, `Monetary ≥ 0`, and `Recency ≥ 1` (the snapshot date
sits one day after the global maximum invoice date, and each group's own
maximum is at most the global one). -/
lemma compute_rfm_clean_bounds (raw : List RawTxn) (r : RfmRow)
    (hr : r ∈ compute_rfm (clean_transactions raw)) :
    1 ≤ r.frequency ∧ 0 ≤ r.monetary ∧ 1 ≤ r.recency := by
  unfold compute_rfm at hr
  rcases List.mem_map.mp hr with ⟨c, hc, rfl⟩
  have hc' : c ∈ (clean_transactions raw).filterMap (·.customerID) :=
    List.mem_dedup.mp ((List.mem_insertionSort _).mp hc)
  rcases List.mem_filterMap.mp hc' with ⟨t, htdf, htc⟩
  have htg : t ∈ customerGroup (clean_transactions raw) c :=
    List.mem_filter.mpr ⟨htdf, decide_eq_true htc⟩
  refine ⟨?_, ?_, ?_⟩
  · -- Frequency: the group is non-empty, so its dedup of invoice ids is too
    have hne : ((customerGroup (clean_transactions raw) c).map (·.invoiceNo)).dedup ≠ [] := by
      intro hnil
      have := (List.dedup_eq_nil _).mp hnil
      have := List.map_eq_nil_iff.mp this
      exact List.ne_nil_of_mem htg this
    exact Nat.succ_le_of_lt (List.length_pos.mpr hne)
  · -- Monetary: a sum of per-row total prices, each positive after cleaning
    apply List.sum_nonneg
    intro x hx
    rcases List.mem_map.mp hx with ⟨u, hu, rfl⟩
    have hudf : u ∈ clean_transactions raw := (List.mem_filter.mp hu).1
    rcases clean_transactions_mem raw u hudf with ⟨hq, hp, htot, _⟩
    rw [htot]
    exact le_of_lt (mul_pos hq hp)
  · -- Recency: the group maximum is at most the global maximum
    have hgle : maxDate (customerGroup (clean_transactions raw) c)
        ≤ maxDate (clean_transactions raw) := by
      apply maxDate_le
      intro u hu
      exact le_maxDate_of_mem (List.mem_filter.mp hu).1
    have hnum : (oneDay : Int) ≤
        (maxDate (clean_transactions raw) : Int) + (oneDay : Int)
          - (maxDate (customerGroup (clean_transactions raw) c) : Int) := by
      have : (maxDate (customerGroup (clean_transactions raw) c) : Int)
          ≤ (maxDate (clean_transactions raw) : Int) := Int.ofNat_le.mpr hgle
      omega
    show 1 ≤ Int.fdiv _ _
    rw [Int.fdiv_eq_ediv _ (by decide : (0 : Int) ≤ (oneDay : Int))]
    have := Int.ediv_le_ediv (by decide : (0 : Int) < (oneDay : Int)) hnum
    simpa using this

/-- CLAIM C6: every RFM row computed from a cleaned transaction set has
`Frequency ≥ 1`, `Monetary ≥ 0` and `Recency ≥ 0`. -/
theorem compute_rfm_bounds_nonneg (raw : List RawTxn) (r : RfmRow)
    (hr : r ∈ compute_rfm (clean_transactions raw)) :
    1 ≤ r.frequency ∧ 0 ≤ r.monetary ∧ 0 ≤ r.recency := by
  rcases compute_rfm_clean_bounds raw r hr with ⟨h1, h2, h3⟩
  exact ⟨h1, h2, le_trans (by decide) h3⟩

/-- Witness for C6: on `boundsRaw`, customer 9's RFM row is in the output
and satisfies the three bounds. -/
theorem compute_rfm_bounds_nonneg_witness :
    (⟨9, 2, 1, 4⟩ : RfmRow) ∈ compute_rfm (clean_transactions boundsRaw) ∧
      (1 ≤ (⟨9, 2, 1, 4⟩ : RfmRow).frequency ∧
        0 ≤ (⟨9, 2, 1, 4⟩ : RfmRow).monetary ∧
        0 ≤ (⟨9, 2, 1, 4⟩ : RfmRow).recency) :=
  ⟨by decide, compute_rfm_bounds_nonneg boundsRaw ⟨9, 2, 1, 4⟩ (by decide)⟩

/-- CLAIM C9: every RFM row computed from a cleaned transaction set has
`Recency ≥ 1` — strictly positive, because the snapshot date is one day
after the global maximum invoice date and every group maximum is at most
that global maximum. -/
theorem compute_rfm_recency_pos (raw : List RawTxn) (r : RfmRow)
    (hr : r ∈ compute_rfm (clean_transactions raw)) :
    1 ≤ r.recency :=
  (compute_rfm_clean_bounds raw r hr).2.2

/-- Witness for C9: on `boundsRaw`, customer 5's latest invoice is the
global maximum, and its recency is exactly 1 (never 0). -/
theorem compute_rfm_recency_pos_witness :
    (⟨5, 1, 1, 6⟩ : RfmRow) ∈ compute_rfm (clean_transactions boundsRaw) ∧
      1 ≤ (⟨5, 1, 1, 6⟩ : RfmRow).recency ∧
      (⟨5, 1, 1, 6⟩ : RfmRow).recency = 1 :=
  ⟨by decide, compute_rfm_recency_pos boundsRaw ⟨5, 1, 1, 6⟩ (by decide), by decide⟩

/-- CLAIM C7: the density trainer never refits the scaler — for the same
RFM table and the same fitted scaler, its scaled features (log1p then the
already-fitted transform) are identical to applying that fitted scaler's
transform to the log features of the centroid trainer's path
(`prepare_for_clustering`'s `rfm_log`), and identical to the spec's
`apply_existing_scaler` contract: the two models cluster in the same
feature space. -/
theorem dbscan_scaling_never_refits (log1p sqrtQ : ℚ → ℚ) (sc : ScalerState)
    (rfm : List RfmRow) :
    TrainDbscan.rfm_scaled log1p sc rfm =
        (prepare_for_clustering log1p sqrtQ rfm).1.map (scalerTransform sc) ∧
      TrainDbscan.rfm_scaled log1p sc rfm = apply_existing_scaler log1p rfm sc := by
  constructor
  · rfl
  · unfold TrainDbscan.rfm_scaled TrainDbscan.rfm_log apply_existing_scaler
    rw [List.map_map]
    rfl

/-- CLAIM C10: the centroid trainer maps `Cluster` to `Segment` through
the fixed 4-entry map regardless of `n_clusters`: in every run with
`n_clusters > 4`, every customer assigned a cluster id outside
{0, 1, 2, 3} gets a null `Segment` in the returned rows and in the
persisted labeled dataset; `train_and_save` is a total function — no
error is raised and no validation compares `n_clusters` with the map's
size. -/
theorem kmeans_segment_null_outside_map (log1p sqrtQ : ℚ → ℚ)
    (kmeansFit : Nat → Nat → List Feat3 → List Int)
    (nClusters randomState : Nat) (store : Store) (raw : List RawTxn)
    (_h4 : 4 < nClusters) :
    (∀ row ∈ (TrainKmeans.train_and_save log1p sqrtQ kmeansFit nClusters
        randomState true store raw).2,
      row.cluster ∉ ([0, 1, 2, 3] : List Int) → row.segment = none) ∧
    (TrainKmeans.train_and_save log1p sqrtQ kmeansFit nClusters
        randomState true store raw).1.parquet =
      some (SavedTable.kmeansOut (TrainKmeans.train_and_save log1p sqrtQ
        kmeansFit nClusters randomState true store raw).2) := by
  constructor
  · intro row hrow hout
    unfold TrainKmeans.train_and_save at hrow
    rcases List.mem_map.mp hrow with ⟨rc, _, rfl⟩
    show DEFAULT_SEGMENT_MAP rc.2 = none
    unfold DEFAULT_SEGMENT_MAP
    have h0 : rc.2 ≠ 0 := fun h => hout (by simp [h])
    have h1 : rc.2 ≠ 1 := fun h => hout (by simp [h])
    have h2 : rc.2 ≠ 2 := fun h => hout (by simp [h])
    have h3 : rc.2 ≠ 3 := fun h => hout (by simp [h])
    simp [h0, h1, h2, h3]
  · rfl

/-- Witness for C10: with `n_clusters = 5` and a run assigning cluster 4,
the single output row is present, its cluster id is outside {0,1,2,3},
and its `Segment` is null, while the labeled dataset is persisted. -/
theorem kmeans_segment_null_outside_map_witness :
    (4 : Nat) < 5 ∧
      (⟨9, 2, 1, 4, 4, none⟩ : KMRow) ∈ (TrainKmeans.train_and_save id id
        kmeansFitConst4 5 42 true ⟨none, false, none, false, none⟩ boundsRaw).2 ∧
      (⟨9, 2, 1, 4, 4, none⟩ : KMRow).cluster ∉ ([0, 1, 2, 3] : List Int) ∧
      (⟨9, 2, 1, 4, 4, none⟩ : KMRow).segment = none ∧
      (TrainKmeans.train_and_save id id kmeansFitConst4 5 42 true
          ⟨none, false, none, false, none⟩ boundsRaw).1.parquet =
        some (SavedTable.kmeansOut (TrainKmeans.train_and_save id id
          kmeansFitConst4 5 42 true ⟨none, false, none, false, none⟩ boundsRaw).2) :=
  ⟨by decide, by decide, by decide,
    (kmeans_segment_null_outside_map id id kmeansFitConst4 5 42
        ⟨none, false, none, false, none⟩ boundsRaw (by decide)).1
      ⟨9, 2, 1, 4, 4, none⟩ (by decide) (by decide),
    (kmeans_segment_null_outside_map id id kmeansFitConst4 5 42
        ⟨none, false, none, false, none⟩ boundsRaw (by decide)).2⟩

namespace TrainDbscan

/-- Under a duplicate-free prior key column, the per-key filter of the
prior table is empty or a single row carrying that key. -/
lemma prior_filter_nodup (prior : List PRow) (c : Int)
    (hnd : (prior.map (·.customerID)).Nodup) :
    prior.filter (fun p => decide (p.customerID = c)) = [] ∨
      ∃ p, prior.filter (fun p => decide (p.customerID = c)) = [p] ∧
        p.customerID = c := by
  induction prior with
  | nil => exact Or.inl rfl
  | cons q rest ih =>
    rw [List.map_cons, List.nodup_cons] at hnd
    rcases hnd with ⟨hq, hrest⟩
    by_cases hqc : q.customerID = c
    · right
      refine ⟨q, ?_, hqc⟩
      have hfr : rest.filter (fun p => decide (p.customerID = c)) = [] := by
        apply List.filter_eq_nil_iff.mpr
        intro a ha hpa
        have hac : a.customerID = c := of_decide_eq_true hpa
        exact hq (List.mem_map.mpr ⟨a, ha, hac.trans hqc.symm⟩)
      simp [List.filter_cons, hqc, hfr]
    · have hd : decide (q.customerID = c) = false := by
        simpa using hqc
      rw [List.filter_cons, hd]
      simp only [Bool.false_eq_true, if_false]
      exact ih hrest

/-- Under a duplicate-free prior key column, each fresh row contributes
exactly one merged row: null-labeled when its key is absent from the
prior, or carrying the unique matching prior row's `Cluster`/`Segment`. -/
lemma mergeOne_eq_nodup (prior : List PRow) (f : DRow)
    (hnd : (prior.map (·.customerID)).Nodup) :
    (prior.filter (fun p => decide (p.customerID = f.customerID)) = [] ∧
        mergeOne prior f = [mergeRow f (none, none)]) ∨
      ∃ p, p ∈ prior ∧ p.customerID = f.customerID ∧
        mergeOne prior f = [mergeRow f (p.cluster, p.segment)] := by
  rcases prior_filter_nodup prior f.customerID hnd with hfil | ⟨p, hfil, hkey⟩
  · left
    refine ⟨hfil, ?_⟩
    unfold mergeOne
    rw [hfil]
  · right
    have hpmem : p ∈ prior := by
      have : p ∈ prior.filter (fun p => decide (p.customerID = f.customerID)) := by
        rw [hfil]; exact List.mem_singleton.mpr rfl
      exact (List.mem_filter.mp this).1
    refine ⟨p, hpmem, hkey, ?_⟩
    unfold mergeOne
    rw [hfil]
    rfl

/-- Left-merging never drops or duplicates a fresh customer when the prior
key column is duplicate-free: the merged key column equals the fresh one. -/
lemma leftMerge_keys (fresh : List DRow) (prior : List PRow)
    (hnd : (prior.map (·.customerID)).Nodup) :
    (leftMerge fresh prior).map (·.customerID) = fresh.map (·.customerID) := by
  induction fresh with
  | nil => rfl
  | cons f rest ih =>
    show ((mergeOne prior f ++ leftMerge rest prior).map (·.customerID)) = _
    rw [List.map_append, ih, List.map_cons]
    rcases mergeOne_eq_nodup prior f hnd with ⟨_, heq⟩ | ⟨p, _, _, heq⟩ <;>
      rw [heq] <;> rfl

/-- Every merged row whose customer also appears in the (duplicate-free)
prior table carries exactly that prior row's `Cluster` and `Segment`. -/
lemma leftMerge_kept (fresh : List DRow) (prior : List PRow)
    (hnd : (prior.map (·.customerID)).Nodup) :
    ∀ m ∈ leftMerge fresh prior, ∀ p ∈ prior, p.customerID = m.customerID →
      m.cluster = p.cluster ∧ m.segment = p.segment := by
  intro m hm p hp hkey
  rcases List.mem_flatMap.mp hm with ⟨f, _, hmf⟩
  rcases mergeOne_eq_nodup prior f hnd with ⟨hfil, heq⟩ | ⟨p', hp', hkey', heq⟩
  · rw [heq] at hmf
    rcases List.mem_singleton.mp hmf with rfl
    exact absurd (decide_eq_true hkey)
      ((List.filter_eq_nil_iff.mp hfil) p hp)
  · rw [heq] at hmf
    rcases List.mem_singleton.mp hmf with rfl
    have hpp : p = p' :=
      List.inj_on_of_nodup_map hnd hp hp' (hkey.trans hkey'.symm)
    rw [hpp]
    exact ⟨rfl, rfl⟩

/-- Every merged row whose customer appears nowhere in the prior table has
null `Cluster` and `Segment`. -/
lemma leftMerge_freshOnly (fresh : List DRow) (prior : List PRow) :
    ∀ m ∈ leftMerge fresh prior, (∀ p ∈ prior, p.customerID ≠ m.customerID) →
      m.cluster = none ∧ m.segment = none := by
  intro m hm hnone
  rcases List.mem_flatMap.mp hm with ⟨f, _, hmf⟩
  unfold mergeOne at hmf
  split at hmf
  · rcases List.mem_singleton.mp hmf with rfl
    exact ⟨rfl, rfl⟩
  · rcases List.mem_map.mp hmf with ⟨p', hp', rfl⟩
    rcases List.mem_filter.mp hp' with ⟨hp'prior, hd⟩
    exact absurd (of_decide_eq_true hd) (hnone p' hp'prior)

end TrainDbscan

/-- CLAIM C1: every run of the density trainer's `train_and_save` with the
scaler artifact present behaves as a frame on the prior `Cluster`/`Segment`
labels.  If a persisted dataset with both `Cluster` and `Segment` columns
exists (its key column duplicate-free, as every dataset this system
persists is), the persisted and returned table is exactly the fresh
RFM-with-DBSCAN table left-joined with the prior's `Cluster`/`Segment` on
`CustomerID`: the merged key column equals the fresh key column (no fresh
customer is dropped or duplicated), customers present in the prior keep
its exact `Cluster`/`Segment` values, and customers only in the fresh
computation get nulls.  If no dataset with those columns exists, the
persisted and returned table is the DBSCAN-only shape, which has no
`Cluster`/`Segment` columns. -/
theorem dbscan_train_merge_frame
    (log1p : ℚ → ℚ) (dbscanFit : ℚ → Nat → List Feat3 → List Int)
    (eps : ℚ) (minSamples : Nat) (store : Store) (raw : List RawTxn)
    (sc : ScalerState) (hsc : store.scaler = some sc)
    (fresh : List DRow)
    (hfresh : fresh = TrainDbscan.fresh_table log1p (dbscanFit eps minSamples) sc
      (compute_rfm (clean_transactions raw))) :
    (∀ t, store.parquet = some t → hasClusterSegmentColumns t = true →
      ((priorClusterSegment t).map (·.customerID)).Nodup →
      TrainDbscan.train_and_save log1p dbscanFit eps minSamples store raw =
          Except.ok
            ({ store with
                dbscanModel := some ⟨eps, minSamples⟩
                parquet := some (SavedTable.mergedOut
                  (TrainDbscan.leftMerge fresh (priorClusterSegment t))) },
              TrainDbscan.DbOut.merged
                (TrainDbscan.leftMerge fresh (priorClusterSegment t))) ∧
        (TrainDbscan.leftMerge fresh (priorClusterSegment t)).map (·.customerID) =
          fresh.map (·.customerID) ∧
        (∀ m ∈ TrainDbscan.leftMerge fresh (priorClusterSegment t),
          ∀ p ∈ priorClusterSegment t, p.customerID = m.customerID →
            m.cluster = p.cluster ∧ m.segment = p.segment) ∧
        (∀ m ∈ TrainDbscan.leftMerge fresh (priorClusterSegment t),
          (∀ p ∈ priorClusterSegment t, p.customerID ≠ m.customerID) →
            m.cluster = none ∧ m.segment = none)) ∧
    (∀ t, store.parquet = some t → hasClusterSegmentColumns t = false →
      TrainDbscan.train_and_save log1p dbscanFit eps minSamples store raw =
        Except.ok
          ({ store with
              dbscanModel := some ⟨eps, minSamples⟩
              parquet := some (SavedTable.dbscanOnly fresh) },
            TrainDbscan.DbOut.noMerge fresh)) ∧
    (store.parquet = none →
      TrainDbscan.train_and_save log1p dbscanFit eps minSamples store raw =
        Except.ok
          ({ store with
              dbscanModel := some ⟨eps, minSamples⟩
              parquet := some (SavedTable.dbscanOnly fresh) },
            TrainDbscan.DbOut.noMerge fresh)) := by
  subst hfresh
  refine ⟨?_, ?_, ?_⟩
  · intro t ht hcols hnd
    refine ⟨?_, TrainDbscan.leftMerge_keys _ _ hnd,
      TrainDbscan.leftMerge_kept _ _ hnd, TrainDbscan.leftMerge_freshOnly _ _⟩
    simp only [TrainDbscan.train_and_save, TrainDbscan.savedOfDbOut, hsc, ht,
      hcols, if_true]
  · intro t ht hcols
    simp only [TrainDbscan.train_and_save, TrainDbscan.savedOfDbOut, hsc, ht,
      hcols, Bool.false_eq_true, if_false]
  · intro h0
    simp only [TrainDbscan.train_and_save, TrainDbscan.savedOfDbOut, hsc, h0]

/-- Witness for C1: with a prior labeled dataset, the run returns and
persists exactly the left-merged table; shared customer 5 keeps the
prior's `Cluster`/`Segment` (`1`/`Loyal`), fresh-only customer 9 gets
nulls, the key column is unchanged; and without a prior dataset the run
persists the DBSCAN-only shape. -/
theorem dbscan_train_merge_frame_witness :
    storeWithPrior.scaler = some scalerUnit ∧
    storeWithPrior.parquet = some priorKmeansTable ∧
    hasClusterSegmentColumns priorKmeansTable = true ∧
    ((priorClusterSegment priorKmeansTable).map (·.customerID)).Nodup ∧
    TrainDbscan.train_and_save id dbscanFitNoise 0 5 storeWithPrior boundsRaw =
      Except.ok
        ({ storeWithPrior with
            dbscanModel := some ⟨0, 5⟩
            parquet := some (SavedTable.mergedOut
              (TrainDbscan.leftMerge dbscanFreshDemo
                (priorClusterSegment priorKmeansTable))) },
          TrainDbscan.DbOut.merged
            (TrainDbscan.leftMerge dbscanFreshDemo
              (priorClusterSegment priorKmeansTable))) ∧
    (TrainDbscan.leftMerge dbscanFreshDemo
        (priorClusterSegment priorKmeansTable)).map (·.customerID) =
      dbscanFreshDemo.map (·.customerID) ∧
    ((⟨5, 1, 1, 6, -1, some 1, some "Loyal"⟩ : MRow) ∈
        TrainDbscan.leftMerge dbscanFreshDemo
          (priorClusterSegment priorKmeansTable) ∧
      (⟨5, some 1, some "Loyal"⟩ : PRow) ∈ priorClusterSegment priorKmeansTable ∧
      (⟨5, 1, 1, 6, -1, some 1, some "Loyal"⟩ : MRow).cluster = some 1 ∧
      (⟨5, 1, 1, 6, -1, some 1, some "Loyal"⟩ : MRow).segment = some "Loyal") ∧
    ((⟨9, 2, 1, 4, -1, none, none⟩ : MRow) ∈
        TrainDbscan.leftMerge dbscanFreshDemo
          (priorClusterSegment priorKmeansTable) ∧
      (⟨9, 2, 1, 4, -1, none, none⟩ : MRow).cluster = none ∧
      (⟨9, 2, 1, 4, -1, none, none⟩ : MRow).segment = none) ∧
    (storeNoPrior.parquet = none ∧
      TrainDbscan.train_and_save id dbscanFitNoise 0 5 storeNoPrior boundsRaw =
        Except.ok
          ({ storeNoPrior with
              dbscanModel := some ⟨0, 5⟩
              parquet := some (SavedTable.dbscanOnly dbscanFreshDemo) },
            TrainDbscan.DbOut.noMerge dbscanFreshDemo)) := by
  have h := dbscan_train_merge_frame id dbscanFitNoise 0 5 storeWithPrior
    boundsRaw scalerUnit rfl dbscanFreshDemo rfl
  have h2 := dbscan_train_merge_frame id dbscanFitNoise 0 5 storeNoPrior
    boundsRaw scalerUnit rfl dbscanFreshDemo rfl
  rcases h.1 priorKmeansTable rfl rfl (by decide) with ⟨heq, hkeys, hkept, hnull⟩
  refine ⟨rfl, rfl, rfl, by decide, heq, hkeys, ⟨by decide, by decide, ?_, ?_⟩,
    ⟨by decide, ?_, ?_⟩, rfl, h2.2.2 rfl⟩
  · exact (hkept ⟨5, 1, 1, 6, -1, some 1, some "Loyal"⟩ (by decide)
      ⟨5, some 1, some "Loyal"⟩ (by decide) (by decide)).1
  · exact (hkept ⟨5, 1, 1, 6, -1, some 1, some "Loyal"⟩ (by decide)
      ⟨5, some 1, some "Loyal"⟩ (by decide) (by decide)).2
  · exact (hnull ⟨9, 2, 1, 4, -1, none, none⟩ (by decide) (by decide)).1
  · exact (hnull ⟨9, 2, 1, 4, -1, none, none⟩ (by decide) (by decide)).2

/-- CLAIM C3: invoking the density trainer with no persisted scaler
artifact fails with `artifactMissing` naming `models/scaler.joblib`, and
performs no training: `train_and_save` returns the error without
producing any store or dataset. -/
theorem dbscan_train_requires_scaler
    (log1p : ℚ → ℚ) (dbscanFit : ℚ → Nat → List Feat3 → List Int)
    (eps : ℚ) (minSamples : Nat) (store : Store) (raw : List RawTxn)
    (hsc : store.scaler = none) :
    TrainDbscan.train_and_save log1p dbscanFit eps minSamples store raw =
      Except.error (TrainError.artifactMissing "models/scaler.joblib") := by
  simp only [TrainDbscan.train_and_save, hsc]

/-- Witness for C3: on the empty store the density trainer's result is the
`artifactMissing` error naming the scaler artifact. -/
theorem dbscan_train_requires_scaler_witness :
    emptyStore.scaler = none ∧
      TrainDbscan.train_and_save id (fun _ _ _ => []) 0 5 emptyStore [] =
        Except.error (TrainError.artifactMissing "models/scaler.joblib") :=
  ⟨rfl, dbscan_train_requires_scaler id (fun _ _ _ => []) 0 5 emptyStore [] rfl⟩

/-- CLAIM C8: with the persisted dataset absent, each of the four read
endpoints (`overview`, `segments`, `summary`, `customer`) detects the
absence and returns the 503 response; every handler is a total Lean
function, so no unhandled error is possible on this condition. -/
theorem endpoints_503_when_dataset_absent :
    (analytics_overview none).status = 503 ∧
      (analytics_segments none).status = 503 ∧
      (analytics_summary none).status = 503 ∧
      ∀ customerId : String, (analytics_customer none customerId).status = 503 :=
  ⟨rfl, rfl, rfl, fun _ => rfl⟩

/-- Counterexample for C2 as stated: with the dataset absent, the
non-numeric id `abc` yields status 503, not a 400-equivalent — the
absence check precedes the numeric validation. -/
theorem customer_400_regardless_counterexample :
    pyFloat "abc" = none ∧
      (analytics_customer none "abc").status = 503 ∧
      (analytics_customer none "abc").status ≠ 400 :=
  ⟨rfl, rfl, by decide⟩

/-- CLAIM C2 (amended): a request with an id not parseable as a number
returns 400 whenever the persisted dataset exists; when the dataset is
absent the dataset check runs first and the endpoint returns 503 even for
such ids. -/
theorem customer_400_when_dataset_present (t : AppTable) (customerId : String)
    (hp : pyFloat customerId = none) :
    (analytics_customer (some t) customerId).status = 400 ∧
      (analytics_customer none customerId).status = 503 := by
  constructor
  · simp only [analytics_customer, get_rfm_df, hp]
  · rfl

/-- Witness for the amended C2: `zzz` does not parse, yields 400 with a
present dataset and 503 with an absent one. -/
theorem customer_400_when_dataset_present_witness :
    pyFloat "zzz" = none ∧
      (analytics_customer (some emptyAppTable) "zzz").status = 400 ∧
      (analytics_customer none "zzz").status = 503 :=
  ⟨rfl, (customer_400_when_dataset_present emptyAppTable "zzz" rfl).1,
    (customer_400_when_dataset_present emptyAppTable "zzz" rfl).2⟩
